import Mathlib

/-!
Shallow embedding of the personal-finance assistant (`final.py`): the
calendar arithmetic used for budget periods, the `FinanceTools` operations
(`add_transaction` with its budget warning, `set_budget` with its upsert),
the `DatabaseManager` conversation-list query, and the `FinanceAgent`
session layer (`get_history`, `load_conversation`, `step`,
`_generate_conversation_id`).  SQL tables are lists of typed rows; SQLite
REAL amounts are rationals; ISO timestamp strings are naturals ordered as
the strings are; `YYYY-MM-DD` date strings are `Date` records ordered
lexicographically (which agrees with the string order on well-formed
dates).
-/

set_option maxRecDepth 16000

namespace FinanceSpec

attribute [local semireducible] Rat.add Rat.mul Rat.inv Rat.sub

/-- A calendar date, standing for a `YYYY-MM-DD` string. -/
structure Date where
  year : Nat
  month : Nat
  day : Nat
deriving DecidableEq, Repr

/-- Leap-year rule used by Python's `datetime` calendar. -/
def isLeapYear (y : Nat) : Bool :=
  (y % 4 == 0 && y % 100 != 0) || y % 400 == 0

/-- Number of days in month `m` of year `y` (Gregorian calendar). -/
def daysInMonth (y m : Nat) : Nat :=
  if m = 2 then (if isLeapYear y then 29 else 28)
  else if m = 4 ∨ m = 6 ∨ m = 9 ∨ m = 11 then 30
  else 31

/-- Lexicographic date comparison; on well-formed zero-padded ISO strings
this is exactly SQLite's string `<=`. -/
def dateLe (a b : Date) : Bool :=
  decide (a.year < b.year) ||
    (decide (a.year = b.year) &&
      (decide (a.month < b.month) ||
        (decide (a.month = b.month) && decide (a.day ≤ b.day))))

/-- The day after `d`, rolling over month and year boundaries
(Python `date + timedelta(days=1)`). -/
def nextDay (d : Date) : Date :=
  if d.day < daysInMonth d.year d.month then ⟨d.year, d.month, d.day + 1⟩
  else if d.month < 12 then ⟨d.year, d.month + 1, 1⟩
  else ⟨d.year + 1, 1, 1⟩

/-- `d + timedelta(days=n)`. -/
def addDays (d : Date) : Nat → Date
  | 0 => d
  | n + 1 => addDays (nextDay d) n

/-- The day before `d` (Python `date - timedelta(days=1)`). -/
def prevDay (d : Date) : Date :=
  if 1 < d.day then ⟨d.year, d.month, d.day - 1⟩
  else if 1 < d.month then ⟨d.year, d.month - 1, daysInMonth d.year (d.month - 1)⟩
  else ⟨d.year - 1, 12, daysInMonth (d.year - 1) 12⟩

/-- First day of the calendar month containing `d`
(`transaction_date[:7] + "-01"`, or `replace(day=1)`). -/
def monthStart (d : Date) : Date := ⟨d.year, d.month, 1⟩

/-- Last day of the calendar month containing `d`, computed the way
`_check_budget_warning` computes it:
`(d.replace(day=1) + timedelta(days=32)).replace(day=1) - timedelta(days=1)`. -/
def monthEnd (d : Date) : Date :=
  let a := addDays ⟨d.year, d.month, 1⟩ 32
  prevDay ⟨a.year, a.month, 1⟩

/-- Row of the `transactions` table. -/
structure TransactionRow where
  id : Nat
  user_id : Nat
  amount : ℚ
  category : String
  transaction_date : Date
  description : Option String
  created_at : Nat
deriving DecidableEq, Repr

/-- Row of the `budgets` table. -/
structure BudgetRow where
  id : Nat
  user_id : Nat
  category : String
  amount : ℚ
  period_type : String
  period_start : Date
  period_end : Date
  created_at : Nat
  updated_at : Nat
deriving DecidableEq, Repr

/-- Row of the `conversations` table. -/
structure ConvRow where
  id : Nat
  user_id : Nat
  agent_type : String
  message_type : String
  content : String
  timestamp : Nat
  conversation_id : String
deriving DecidableEq, Repr

/-- SQL `ABS` on a REAL value. -/
def sqlAbs (q : ℚ) : ℚ := if q < 0 then -q else q

/-- The budget row fetched by `_check_budget_warning`:
`SELECT amount FROM budgets WHERE user_id = ? AND category = ? AND
period_type = '月' AND period_start <= ? AND period_end >= ?` with
`fetchone` taking the first matching row. -/
def findBudget (budgets : List BudgetRow) (uid : Nat) (cat : String) (d : Date) :
    Option BudgetRow :=
  budgets.find? fun b =>
    decide (b.user_id = uid) && decide (b.category = cat) &&
      decide (b.period_type = "月") && dateLe b.period_start d && dateLe d b.period_end

/-- `SELECT SUM(ABS(amount)) FROM transactions WHERE user_id = ? AND
category = ? AND amount < 0 AND transaction_date BETWEEN ? AND ?`
(`NULL` sum coalesced to 0 by `or 0`). -/
def monthlySpent (txns : List TransactionRow) (uid : Nat) (cat : String)
    (lo hi : Date) : ℚ :=
  ((txns.filter fun t =>
      decide (t.user_id = uid) && decide (t.category = cat) &&
        decide (t.amount < 0) && dateLe lo t.transaction_date &&
        dateLe t.transaction_date hi).map
    fun t => sqlAbs t.amount).foldr (· + ·) 0

/-- Structured form of the warning strings produced by
`_check_budget_warning`: `overspend` carries the budget, the total spent
and the stated overage (`总花费 - 预算`); `reminder` carries the percentage
and the remaining amount. -/
inductive Warning where
  | overspend (category : String) (budget spent over : ℚ)
  | reminder (category : String) (pct remaining : ℚ)
deriving DecidableEq, Repr

/-- `FinanceTools._check_budget_warning`: income is never checked; the
month window is `[monthStart, monthEnd]` of the transaction date; the
percentage is guarded to 0 when the budget amount is not positive; above
100% an overspend warning, above 80% a reminder, otherwise nothing. -/
def check_budget_warning (budgets : List BudgetRow) (txns : List TransactionRow)
    (uid : Nat) (cat : String) (amount : ℚ) (tdate : Date) : Option Warning :=
  if 0 < amount then none
  else
    match findBudget budgets uid cat tdate with
    | none => none
    | some b =>
      let total := monthlySpent txns uid cat (monthStart tdate) (monthEnd tdate)
      let pct : ℚ := if 0 < b.amount then total / b.amount * 100 else 0
      if 100 < pct then some (.overspend cat b.amount total (total - b.amount))
      else if 80 < pct then some (.reminder cat pct (b.amount - total))
      else none

/-- `FinanceTools.add_transaction`: insert the row, then run the budget
check over the table that already contains the new row; the returned pair
is (updated table, the `warning` field of the success envelope). -/
def add_transaction (budgets : List BudgetRow) (txns : List TransactionRow)
    (newId uid : Nat) (amount : ℚ) (cat : String) (tdate : Date)
    (desc : Option String) (createdAt : Nat) :
    List TransactionRow × Option Warning :=
  let txns2 := txns ++ [⟨newId, uid, amount, cat, tdate, desc, createdAt⟩]
  (txns2, check_budget_warning budgets txns2 uid cat amount tdate)

/-- The month-period end date computed by `set_budget` when the bounds are
defaulted: `today.replace(day=28) + timedelta(days=4)`, then
`.replace(day=1) - timedelta(days=1)`. -/
def setBudgetMonthEnd (today : Date) : Date :=
  let nm := addDays ⟨today.year, today.month, 28⟩ 4
  prevDay ⟨nm.year, nm.month, 1⟩

/-- The quarter-period end date computed by `set_budget`:
`today.replace(month=today.month+2, day=1)` (a `ValueError` when the
month exceeds 12 is caught and falls back to December 31), otherwise
`+ timedelta(days=32)`, `.replace(day=1) - timedelta(days=1)`. -/
def setBudgetQuarterEnd (today : Date) : Date :=
  if today.month + 2 ≤ 12 then
    let a := addDays ⟨today.year, today.month + 2, 1⟩ 32
    prevDay ⟨a.year, a.month, 1⟩
  else ⟨today.year, 12, 31⟩

/-- The period-bound handling at the top of `FinanceTools.set_budget`:
`if period_start is None or period_end is None:` recomputes both bounds
from `today` according to `period_type`; only when both are supplied are
they used as given. -/
def set_budget_period (today : Date) (period_type : String)
    (period_start period_end : Option Date) : Date × Date :=
  match period_start, period_end with
  | some s, some e => (s, e)
  | _, _ =>
    if period_type = "月" then
      (monthStart today, setBudgetMonthEnd today)
    else if period_type = "季" then
      (monthStart today, setBudgetQuarterEnd today)
    else
      (⟨today.year, 1, 1⟩, ⟨today.year, 12, 31⟩)

/-- The budget-key predicate of the `UNIQUE(user_id, category,
period_start, period_end)` constraint and of the subqueries in
`set_budget`'s `INSERT OR REPLACE`. -/
def budgetKeyMatch (r : BudgetRow) (uid : Nat) (cat : String) (ps pe : Date) : Bool :=
  decide (r.user_id = uid) && decide (r.category = cat) &&
    decide (r.period_start = ps) && decide (r.period_end = pe)

/-- The `INSERT OR REPLACE INTO budgets` statement of `set_budget`: the id
is the existing row's id when one matches the key (else a fresh
autoincrement id), `created_at` is `COALESCE(old created_at, now)`, and
REPLACE deletes any row conflicting on the id primary key or on the
unique budget key before inserting. -/
def upsert_budget (tbl : List BudgetRow) (nextId uid : Nat) (cat : String)
    (amount : ℚ) (ptype : String) (ps pe : Date) (now : Nat) : List BudgetRow :=
  let existing := tbl.find? fun r => budgetKeyMatch r uid cat ps pe
  let rid := match existing with | some r => r.id | none => nextId
  let cAt := match existing with | some r => r.created_at | none => now
  let newRow : BudgetRow := ⟨rid, uid, cat, amount, ptype, ps, pe, cAt, now⟩
  (tbl.filter fun r => !(decide (r.id = rid) || budgetKeyMatch r uid cat ps pe)) ++ [newRow]

/-- `FinanceTools.set_budget`: default the period bounds, then upsert. -/
def set_budget (tbl : List BudgetRow) (nextId : Nat) (today : Date) (uid : Nat)
    (cat : String) (amount : ℚ) (ptype : String)
    (period_start period_end : Option Date) (now : Nat) : List BudgetRow :=
  let p := set_budget_period today ptype period_start period_end
  upsert_budget tbl nextId uid cat amount ptype p.1 p.2 now

/-- Descending order on (conversation id, last update) pairs used by
`ORDER BY last_update DESC`. -/
def convDesc (a b : String × Nat) : Prop := b.2 ≤ a.2

instance : DecidableRel convDesc := fun a b => inferInstanceAs (Decidable (b.2 ≤ a.2))

instance : IsTotal (String × Nat) convDesc := ⟨fun a b => le_total b.2 a.2⟩

instance : IsTrans (String × Nat) convDesc := ⟨fun _ _ _ hab hbc => le_trans hbc hab⟩

/-- `MAX(timestamp)` over the turns of one conversation id. -/
def lastUpdate (rows : List ConvRow) (cid : String) : Nat :=
  ((rows.filter fun r => decide (r.conversation_id = cid)).map
    fun r => r.timestamp).foldr max 0

/-- `DatabaseManager.get_conversation_list`:
`SELECT DISTINCT conversation_id, MAX(timestamp) AS last_update FROM
conversations WHERE user_id = ? AND agent_type = ? GROUP BY
conversation_id ORDER BY last_update DESC`, returning (conversation id,
last update) pairs.  The display label the Python wraps around each pair
is presentation only. -/
def get_conversation_list (convs : List ConvRow) (uid : Nat) (agent : String) :
    List (String × Nat) :=
  let rows := convs.filter fun r =>
    decide (r.user_id = uid) && decide (r.agent_type = agent)
  let ids := (rows.map fun r => r.conversation_id).dedup
  let pairs := ids.map fun cid => (cid, lastUpdate rows cid)
  pairs.insertionSort convDesc

/-- Descending timestamp order on conversation rows
(`ORDER BY timestamp DESC`). -/
def histDesc (a b : ConvRow) : Prop := b.timestamp ≤ a.timestamp

instance : DecidableRel histDesc := fun a b => inferInstanceAs (Decidable (b.timestamp ≤ a.timestamp))

instance : IsTotal ConvRow histDesc := ⟨fun a b => le_total b.timestamp a.timestamp⟩

instance : IsTrans ConvRow histDesc := ⟨fun _ _ _ hab hbc => le_trans hbc hab⟩

/-- The rows selected by `FinanceAgent.get_history`:
`SELECT message_type, content FROM conversations WHERE user_id = ? AND
agent_type = ? AND conversation_id = ? ORDER BY timestamp DESC LIMIT 20`,
then `reversed(rows)` to put them back in chronological order. -/
def get_history_rows (convs : List ConvRow) (uid : Nat) (agent cid : String) :
    List ConvRow :=
  ((((convs.filter fun r =>
      decide (r.user_id = uid) && decide (r.agent_type = agent) &&
        decide (r.conversation_id = cid)).insertionSort histDesc).take 20)).reverse

/-- The history text built by `FinanceAgent.get_history`:
`"\n".join(f"{message_type}: {content}" for each kept row)`. -/
def get_history (convs : List ConvRow) (uid : Nat) (agent cid : String) : String :=
  String.intercalate ("\n")
    ((get_history_rows convs uid agent cid).map fun r =>
      r.message_type ++ ": " ++ r.content)

/-- The mutable session state of a `FinanceAgent`. -/
structure AgentState where
  user_id : Nat
  agent_type : String
  conversation_id : String
deriving DecidableEq, Repr

/-- `SELECT COUNT(*) FROM conversations WHERE user_id = ? AND
agent_type = ? AND conversation_id = ?`. -/
def countConv (convs : List ConvRow) (uid : Nat) (agent cid : String) : Nat :=
  (convs.filter fun r =>
    decide (r.user_id = uid) && decide (r.agent_type = agent) &&
      decide (r.conversation_id = cid)).length

/-- `FinanceAgent.load_conversation`: when the ownership lookup raises
(modelled by `queryFails`), the `except` branch returns `False` without
touching the state; when the count is positive adopt the id; otherwise
return `False` unchanged. -/
def load_conversation (convs : List ConvRow) (st : AgentState) (cid : String)
    (queryFails : Bool) : Bool × AgentState :=
  if queryFails then (false, st)
  else if 0 < countConv convs st.user_id st.agent_type cid then
    (true, { st with conversation_id := cid })
  else (false, st)

/-- A tool envelope as `_process_tool_results` sees it after
`json.loads`: either a parsed status/message/warning record, or a raw
string when parsing raised `JSONDecodeError`. -/
inductive ToolResult where
  | parsed (status : String) (message : Option String) (warning : Option String)
  | unparsed (raw : String)
deriving DecidableEq, Repr

/-- The per-result formatting loop of `_process_tool_results`. -/
def formatToolResult : ToolResult → String
  | .parsed status msg warn =>
    if status = "success" then
      (match msg with | some m => "操作成功: " ++ m ++ "\n" | none => "") ++
        (match warn with | some w => "提醒: " ++ w ++ "\n" | none => "")
    else ("操作失败: ") ++ (msg.getD ("未知错误")) ++ "\n"
  | .unparsed raw => "工具返回: " ++ raw ++ "\n"

/-- Outcome of one turn-generation attempt: either a reply with its tool
results, or any exception raised while generating or while reading the
response shape. -/
inductive GenOutcome where
  | ok (content : String) (toolResults : List ToolResult)
  | err (e : String)

/-- `_process_tool_results` at the top level: without tool results the
model's own content is returned unchanged, otherwise the formatted
results are appended after a blank line. -/
def processToolResults (content : String) (results : List ToolResult) : String :=
  if results.isEmpty then content
  else content ++ "\n\n" ++ String.join (results.map formatToolResult)

/-- The fixed-format fallback reply built in `step`'s `except` branch:
`f"处理请求时出错: {e}。请尝试重新表述您的问题。"`. -/
def errorReply (e : String) : String :=
  "处理请求时出错: " ++ e ++ "。请尝试重新表述您的问题。"

/-- The prompt composed by `FinanceAgent.step`: the persisted history as a
textual preamble ahead of the new user message, or the bare message when
there is no history. -/
def fullPrompt (convs : List ConvRow) (st : AgentState) (userMsg : String) : String :=
  let history := get_history convs st.user_id st.agent_type st.conversation_id
  if history = "" then userMsg
  else ("历史对话：\n") ++ history ++ ("\n用户现在说：") ++ userMsg

/-- `FinanceAgent.step`: build the prompt, run the generator, splice tool
results into the reply; every failure during generation resolves into the
fixed fallback reply, and the session state is never modified. -/
def step (convs : List ConvRow) (st : AgentState) (userMsg : String)
    (gen : String → GenOutcome) : String × AgentState :=
  match gen (fullPrompt convs st userMsg) with
  | .ok c trs => (processToolResults c trs, st)
  | .err e => (errorReply e, st)

/-- `FinanceAgent._generate_conversation_id`:
`f"{user_id}_{agent_type}_{timestamp}_{os.urandom(4).hex()}"`, with the
second-resolution timestamp and the random hex passed in explicitly. -/
def generate_conversation_id (uid : Nat) (agentType ts rand : String) : String :=
  toString uid ++ "_" ++ agentType ++ "_" ++ ts ++ "_" ++ rand

/-- First day of the month after month `m` of year `y`. -/
def nextMonthFirst (y m : Nat) : Date :=
  if m < 12 then ⟨y, m + 1, 1⟩ else ⟨y + 1, 1, 1⟩

theorem daysInMonth_ge (y m : Nat) : 28 ≤ daysInMonth y m := by
  unfold daysInMonth
  split_ifs <;> omega

theorem daysInMonth_le (y m : Nat) : daysInMonth y m ≤ 31 := by
  unfold daysInMonth
  split_ifs <;> omega

theorem addDays_add (d : Date) (a b : Nat) :
    addDays d (a + b) = addDays (addDays d a) b := by
  induction a generalizing d with
  | zero => simp [addDays]
  | succ n ih =>
    have h : n + 1 + b = (n + b) + 1 := by omega
    rw [h]
    show addDays (nextDay d) (n + b) = addDays (addDays (nextDay d) n) b
    exact ih (nextDay d)

theorem addDays_within (k : Nat) (d : Date)
    (h : d.day + k ≤ daysInMonth d.year d.month) :
    addDays d k = ⟨d.year, d.month, d.day + k⟩ := by
  induction k generalizing d with
  | zero => cases d; simp [addDays]
  | succ n ih =>
    have hlt : d.day < daysInMonth d.year d.month := by omega
    have h1 : nextDay d = ⟨d.year, d.month, d.day + 1⟩ := by
      simp [nextDay, hlt]
    show addDays (nextDay d) n = _
    rw [h1, ih ⟨d.year, d.month, d.day + 1⟩ (by simpa using by omega)]
    simp
    omega

theorem nextDay_lastDay (y m d0 : Nat) (h : d0 = daysInMonth y m) :
    nextDay ⟨y, m, d0⟩ = nextMonthFirst y m := by
  subst h
  simp [nextDay, nextMonthFirst]

theorem addDays_cross (y m d0 k : Nat) (h1 : d0 ≤ daysInMonth y m)
    (h2 : daysInMonth y m < d0 + k) (h3 : d0 + k ≤ daysInMonth y m + 28) :
    addDays ⟨y, m, d0⟩ k =
      ⟨(nextMonthFirst y m).year, (nextMonthFirst y m).month,
        d0 + k - daysInMonth y m⟩ := by
  have hk : k = (daysInMonth y m - d0) + (1 + (d0 + k - daysInMonth y m - 1)) := by
    omega
  rw [hk, addDays_add, addDays_within (daysInMonth y m - d0) ⟨y, m, d0⟩ (by simp; omega)]
  rw [addDays_add _ 1]
  have hone : addDays ⟨y, m, d0 + (daysInMonth y m - d0)⟩ 1 = nextMonthFirst y m := by
    show nextDay ⟨y, m, d0 + (daysInMonth y m - d0)⟩ = nextMonthFirst y m
    exact nextDay_lastDay y m _ (by omega)
  have hday : (nextMonthFirst y m).day = 1 := by
    unfold nextMonthFirst; split_ifs <;> rfl
  rw [hone, addDays_within _ _ (by
    have hge := daysInMonth_ge (nextMonthFirst y m).year (nextMonthFirst y m).month
    rw [hday]
    omega)]
  rw [hday]
  simp only [Date.mk.injEq]
  exact ⟨trivial, trivial, by omega⟩

theorem prevDay_nextMonthFirst (y m : Nat) (h1 : 1 ≤ m) (h2 : m ≤ 12) :
    prevDay (nextMonthFirst y m) = ⟨y, m, daysInMonth y m⟩ := by
  unfold nextMonthFirst prevDay
  by_cases hm : m < 12
  · simp only [if_pos hm]
    have hgt : 1 < m + 1 := by omega
    simp [hgt]
  · have hm12 : m = 12 := by omega
    subst hm12
    simp

theorem monthEnd_eq (d : Date) (h1 : 1 ≤ d.month) (h2 : d.month ≤ 12) :
    monthEnd d = ⟨d.year, d.month, daysInMonth d.year d.month⟩ := by
  have hge := daysInMonth_ge d.year d.month
  have hle := daysInMonth_le d.year d.month
  unfold monthEnd
  rw [addDays_cross d.year d.month 1 32 (by omega) (by omega) (by omega)]
  have hfix : (⟨(nextMonthFirst d.year d.month).year,
      (nextMonthFirst d.year d.month).month, 1⟩ : Date) =
      nextMonthFirst d.year d.month := by
    unfold nextMonthFirst; split_ifs <;> rfl
  simp only [hfix]
  exact prevDay_nextMonthFirst d.year d.month h1 h2

theorem setBudgetMonthEnd_eq (today : Date) (h1 : 1 ≤ today.month)
    (h2 : today.month ≤ 12) :
    setBudgetMonthEnd today =
      ⟨today.year, today.month, daysInMonth today.year today.month⟩ := by
  have hge := daysInMonth_ge today.year today.month
  have hle := daysInMonth_le today.year today.month
  unfold setBudgetMonthEnd
  rw [addDays_cross today.year today.month 28 4 (by omega) (by omega) (by omega)]
  have hfix : (⟨(nextMonthFirst today.year today.month).year,
      (nextMonthFirst today.year today.month).month, 1⟩ : Date) =
      nextMonthFirst today.year today.month := by
    unfold nextMonthFirst; split_ifs <;> rfl
  simp only [hfix]
  exact prevDay_nextMonthFirst today.year today.month h1 h2

/-- C7: for every call to `set_budget` with period type "月" (month) in
which both period bounds are omitted, the stored `period_start` is the
first calendar day of the current month and the stored `period_end` is
the last calendar day of that same month, for every current date
including months of 28, 29, 30 and 31 days. -/
theorem set_budget_month_default_bounds (today : Date) (h1 : 1 ≤ today.month)
    (h2 : today.month ≤ 12) :
    set_budget_period today ("月") none none =
      (⟨today.year, today.month, 1⟩,
        ⟨today.year, today.month, daysInMonth today.year today.month⟩) := by
  show (monthStart today, setBudgetMonthEnd today) = _
  rw [setBudgetMonthEnd_eq today h1 h2]
  rfl

/-- Witness for `set_budget_month_default_bounds` at February 2024, a
29-day month. -/
theorem set_budget_month_default_bounds_witness :
    1 ≤ (⟨2024, 2, 15⟩ : Date).month ∧ (⟨2024, 2, 15⟩ : Date).month ≤ 12 ∧
      set_budget_period ⟨2024, 2, 15⟩ "月" none none =
        (⟨2024, 2, 1⟩, ⟨2024, 2, 29⟩) :=
  ⟨by decide, by decide,
    (set_budget_month_default_bounds ⟨2024, 2, 15⟩ (by decide) (by decide)).trans
      (by decide)⟩

/-- C3: loading a conversation identifier that has no persisted turn
owned by the session's (user, agent type) pair returns `false` and leaves
the session state — in particular its current conversation identifier —
unchanged, both on the normal lookup path and on the lookup-exception
path. -/
theorem load_conversation_unowned_id_fails (convs : List ConvRow)
    (st : AgentState) (cid : String)
    (h : ∀ r ∈ convs, ¬(r.user_id = st.user_id ∧ r.agent_type = st.agent_type ∧
      r.conversation_id = cid))
    (queryFails : Bool) :
    load_conversation convs st cid queryFails = (false, st) := by
  have hcount : countConv convs st.user_id st.agent_type cid = 0 := by
    unfold countConv
    rw [List.length_eq_zero, List.filter_eq_nil_iff]
    intro r hr
    have hne := h r hr
    simp only [Bool.and_eq_true, decide_eq_true_eq]
    tauto
  cases queryFails with
  | false => simp [load_conversation, hcount]
  | true => rfl

/-- Witness for `load_conversation_unowned_id_fails`: a store holding one
turn of another user, queried for an identifier the session does not own,
on both the normal and the exception path. -/
theorem load_conversation_unowned_id_fails_witness :
    (∀ r ∈ [(⟨1, 2, "小账", "user", "hi", 5, "c1"⟩ : ConvRow)],
      ¬(r.user_id = (⟨1, "小账", "c0"⟩ : AgentState).user_id ∧
        r.agent_type = (⟨1, "小账", "c0"⟩ : AgentState).agent_type ∧
        r.conversation_id = "c1")) ∧
      load_conversation [⟨1, 2, "小账", "user", "hi", 5, "c1"⟩] ⟨1, "小账", "c0"⟩
          "c1" false = (false, ⟨1, "小账", "c0"⟩) ∧
      load_conversation [⟨1, 2, "小账", "user", "hi", 5, "c1"⟩] ⟨1, "小账", "c0"⟩
          "c1" true = (false, ⟨1, "小账", "c0"⟩) :=
  ⟨by decide,
    load_conversation_unowned_id_fails _ _ _ (by decide) false,
    load_conversation_unowned_id_fails _ _ _ (by decide) true⟩

/-- C8: whatever the turn generator does, `step` returns a reply instead
of propagating a failure, the session state (hence its conversation
identifier) is unchanged, and on any generation failure the reply is the
fixed-format apologetic fallback built from the error text. -/
theorem step_error_fallback (convs : List ConvRow) (st : AgentState)
    (userMsg : String) (gen : String → GenOutcome) :
    (step convs st userMsg gen).2 = st ∧
      ∀ e, gen (fullPrompt convs st userMsg) = .err e →
        (step convs st userMsg gen).1 = errorReply e := by
  unfold step
  cases hg : gen (fullPrompt convs st userMsg) with
  | ok c trs =>
    refine ⟨rfl, fun e he => ?_⟩
    cases he
  | err e0 =>
    refine ⟨rfl, fun e he => ?_⟩
    injection he with h
    subst h
    rfl

/-- Witness for `step_error_fallback`: a generator that always fails
yields the fallback reply and an unchanged session. -/
theorem step_error_fallback_witness :
    (step [] ⟨1, "小账", "c0"⟩ "你好" (fun _ => .err ("模型调用失败"))).2 =
        (⟨1, "小账", "c0"⟩ : AgentState) ∧
      (step [] ⟨1, "小账", "c0"⟩ "你好" (fun _ => .err ("模型调用失败"))).1 =
        errorReply ("模型调用失败") :=
  ⟨(step_error_fallback [] ⟨1, "小账", "c0"⟩ "你好" (fun _ => .err ("模型调用失败"))).1,
    (step_error_fallback [] ⟨1, "小账", "c0"⟩ "你好"
      (fun _ => .err ("模型调用失败"))).2 ("模型调用失败") rfl⟩

/-- C9: two conversation identifiers minted for the same user, agent type
and second-resolution timestamp are distinct whenever their random
components differ — the random component disambiguates equal
timestamps. -/
theorem generate_conversation_id_distinct (uid : Nat) (agentType ts r1 r2 : String)
    (h : r1 ≠ r2) :
    generate_conversation_id uid agentType ts r1 ≠
      generate_conversation_id uid agentType ts r2 := by
  intro heq
  apply h
  have hd := congrArg String.data heq
  simp only [generate_conversation_id, String.data_append, List.append_assoc] at hd
  have hdata : r1.data = r2.data := by
    exact List.append_cancel_left (List.append_cancel_left (List.append_cancel_left
      (List.append_cancel_left (List.append_cancel_left
        (List.append_cancel_left hd)))))
  cases r1
  cases r2
  exact congrArg String.mk hdata

/-- Witness for `generate_conversation_id_distinct`: two ids minted in
the same second with different random suffixes. -/
theorem generate_conversation_id_distinct_witness :
    ("aabbccdd" : String) ≠ "11223344" ∧
      generate_conversation_id 1 "小账" "20240101120000" "aabbccdd" ≠
        generate_conversation_id 1 "小账" "20240101120000" "11223344" :=
  ⟨by decide,
    generate_conversation_id_distinct 1 "小账" "20240101120000" "aabbccdd"
      "11223344" (by decide)⟩

/-- C6: for every (user, agent type) pair and every persisted set of
turns, the conversation list is ordered by most recent turn timestamp
descending and contains each conversation identifier at most once. -/
theorem get_conversation_list_sorted_nodup (convs : List ConvRow) (uid : Nat)
    (agent : String) :
    (get_conversation_list convs uid agent).Pairwise convDesc ∧
      ((get_conversation_list convs uid agent).map Prod.fst).Nodup := by
  constructor
  · exact List.sorted_insertionSort convDesc _
  · have hperm :
        List.Perm (get_conversation_list convs uid agent)
          (((convs.filter fun r =>
              decide (r.user_id = uid) && decide (r.agent_type = agent)).map
            (fun r => r.conversation_id)).dedup.map
            (fun cid => (cid, lastUpdate (convs.filter fun r =>
              decide (r.user_id = uid) && decide (r.agent_type = agent)) cid))) :=
      List.perm_insertionSort convDesc _
    rw [(hperm.map Prod.fst).nodup_iff]
    rw [List.map_map]
    simpa [Function.comp_def] using
      List.nodup_dedup ((convs.filter fun r =>
        decide (r.user_id = uid) && decide (r.agent_type = agent)).map
        (fun r => r.conversation_id))

/-- C2: the rows `get_history` turns into the prompt's history preamble
number at most 20, all belong to the current conversation identifier, are
in chronological (oldest-first) order, and every row dropped by the
`LIMIT 20` is no newer than every row kept. -/
theorem get_history_bounded_and_ordered (convs : List ConvRow) (uid : Nat)
    (agent cid : String) :
    (get_history_rows convs uid agent cid).length ≤ 20 ∧
      (∀ r ∈ get_history_rows convs uid agent cid, r.conversation_id = cid) ∧
      (get_history_rows convs uid agent cid).Pairwise
        (fun a b => a.timestamp ≤ b.timestamp) ∧
      ∀ x ∈ get_history_rows convs uid agent cid,
        ∀ y ∈ (((convs.filter fun r =>
            decide (r.user_id = uid) && decide (r.agent_type = agent) &&
              decide (r.conversation_id = cid)).insertionSort histDesc).drop 20),
          y.timestamp ≤ x.timestamp := by
  have hsorted :
      ((convs.filter fun r =>
          decide (r.user_id = uid) && decide (r.agent_type = agent) &&
            decide (r.conversation_id = cid)).insertionSort histDesc).Pairwise
        histDesc :=
    List.sorted_insertionSort histDesc _
  refine ⟨?_, ?_, ?_, ?_⟩
  · simp only [get_history_rows, List.length_reverse, List.length_take]
    exact min_le_left _ _
  · intro r hr
    simp only [get_history_rows, List.mem_reverse] at hr
    have hr2 := (List.take_sublist 20 _).subset hr
    have hr3 := (List.perm_insertionSort histDesc _).subset hr2
    have := (List.mem_filter.mp hr3).2
    simp only [Bool.and_eq_true, decide_eq_true_eq] at this
    exact this.2
  · simp only [get_history_rows, List.pairwise_reverse]
    exact hsorted.sublist (List.take_sublist 20 _)
  · intro x hx y hy
    simp only [get_history_rows, List.mem_reverse] at hx
    have hsplit := hsorted
    rw [← List.take_append_drop 20 ((convs.filter fun r =>
        decide (r.user_id = uid) && decide (r.agent_type = agent) &&
          decide (r.conversation_id = cid)).insertionSort histDesc)] at hsplit
    exact (List.pairwise_append.mp hsplit).2.2 x hx y hy

/-- C1 counterexample: a transaction of −5 recorded under an active
monthly budget of amount 0 covering its date makes the month's spend (5)
exceed the budget amount (0), yet the returned envelope carries no
warning — the claim's overspend guarantee fails for non-positive budget
amounts. -/
theorem add_transaction_overspend_claim_false :
    findBudget [⟨1, 1, "餐饮", 0, "月", ⟨2024, 6, 1⟩, ⟨2024, 6, 30⟩, 0, 0⟩] 1 "餐饮"
        ⟨2024, 6, 10⟩ =
      some ⟨1, 1, "餐饮", 0, "月", ⟨2024, 6, 1⟩, ⟨2024, 6, 30⟩, 0, 0⟩ ∧
    (0 : ℚ) <
      monthlySpent
        (add_transaction [⟨1, 1, "餐饮", 0, "月", ⟨2024, 6, 1⟩, ⟨2024, 6, 30⟩, 0, 0⟩]
          [] 1 1 (-5) "餐饮" ⟨2024, 6, 10⟩ none 0).1
        1 "餐饮" (monthStart ⟨2024, 6, 10⟩) (monthEnd ⟨2024, 6, 10⟩) ∧
    (add_transaction [⟨1, 1, "餐饮", 0, "月", ⟨2024, 6, 1⟩, ⟨2024, 6, 30⟩, 0, 0⟩]
        [] 1 1 (-5) "餐饮" ⟨2024, 6, 10⟩ none 0).2 = none := by
  refine ⟨by decide, by decide, by decide⟩

/-- C1 (amended): for a transaction with negative amount in a category
whose first matching active monthly budget has positive amount, if the
month's cumulative spend including the new transaction exceeds the budget
amount the envelope carries an overspend warning whose stated overage is
exactly total spent minus budget amount, and if the cumulative spend does
not exceed 80% of the budget no warning is attached. -/
theorem add_transaction_overspend_exact (budgets : List BudgetRow)
    (txns : List TransactionRow) (newId uid : Nat) (amount : ℚ) (cat : String)
    (tdate : Date) (desc : Option String) (cAt : Nat) (b : BudgetRow)
    (hneg : amount < 0) (hb : findBudget budgets uid cat tdate = some b)
    (hpos : 0 < b.amount) :
    (b.amount <
        monthlySpent (add_transaction budgets txns newId uid amount cat tdate desc cAt).1
          uid cat (monthStart tdate) (monthEnd tdate) →
      (add_transaction budgets txns newId uid amount cat tdate desc cAt).2 =
        some (.overspend cat b.amount
          (monthlySpent (add_transaction budgets txns newId uid amount cat tdate desc cAt).1
            uid cat (monthStart tdate) (monthEnd tdate))
          (monthlySpent (add_transaction budgets txns newId uid amount cat tdate desc cAt).1
            uid cat (monthStart tdate) (monthEnd tdate) - b.amount))) ∧
    (monthlySpent (add_transaction budgets txns newId uid amount cat tdate desc cAt).1
        uid cat (monthStart tdate) (monthEnd tdate) ≤ 80 / 100 * b.amount →
      (add_transaction budgets txns newId uid amount cat tdate desc cAt).2 = none) := by
  have hnp : ¬ (0 : ℚ) < amount := not_lt.mpr (le_of_lt hneg)
  simp only [add_transaction]
  have hwarn : check_budget_warning budgets
      (txns ++ [⟨newId, uid, amount, cat, tdate, desc, cAt⟩]) uid cat amount tdate =
      (if 100 < monthlySpent (txns ++ [⟨newId, uid, amount, cat, tdate, desc, cAt⟩])
            uid cat (monthStart tdate) (monthEnd tdate) / b.amount * 100 then
        some (Warning.overspend cat b.amount
          (monthlySpent (txns ++ [⟨newId, uid, amount, cat, tdate, desc, cAt⟩])
            uid cat (monthStart tdate) (monthEnd tdate))
          (monthlySpent (txns ++ [⟨newId, uid, amount, cat, tdate, desc, cAt⟩])
            uid cat (monthStart tdate) (monthEnd tdate) - b.amount))
      else if 80 < monthlySpent (txns ++ [⟨newId, uid, amount, cat, tdate, desc, cAt⟩])
            uid cat (monthStart tdate) (monthEnd tdate) / b.amount * 100 then
        some (Warning.reminder cat
          (monthlySpent (txns ++ [⟨newId, uid, amount, cat, tdate, desc, cAt⟩])
            uid cat (monthStart tdate) (monthEnd tdate) / b.amount * 100)
          (b.amount - monthlySpent (txns ++ [⟨newId, uid, amount, cat, tdate, desc, cAt⟩])
            uid cat (monthStart tdate) (monthEnd tdate)))
      else none) := by
    unfold check_budget_warning
    rw [if_neg hnp]
    simp only [hb]
    rw [if_pos hpos]
  rw [hwarn]
  set T := monthlySpent (txns ++ [⟨newId, uid, amount, cat, tdate, desc, cAt⟩])
    uid cat (monthStart tdate) (monthEnd tdate) with hT
  constructor
  · intro hover
    have h100 : 100 < T / b.amount * 100 := by
      rw [div_mul_eq_mul_div, lt_div_iff₀ hpos]
      linarith
    rw [if_pos h100]
  · intro hle
    have h80 : T / b.amount * 100 ≤ 80 := by
      rw [div_mul_eq_mul_div, div_le_iff₀ hpos]
      linarith
    rw [if_neg (not_lt.mpr (h80.trans (by norm_num))), if_neg (not_lt.mpr h80)]

/-- Witness for `add_transaction_overspend_exact`, the spec's own
example: budget 500, prior month spend 470, recording −35 yields total
505 and an overspend warning stating exactly 5. -/
theorem add_transaction_overspend_exact_witness :
    ((-35 : ℚ) < 0 ∧
      findBudget [⟨1, 1, "餐饮", 500, "月", ⟨2024, 6, 1⟩, ⟨2024, 6, 30⟩, 0, 0⟩] 1 "餐饮"
          ⟨2024, 6, 10⟩ =
        some ⟨1, 1, "餐饮", 500, "月", ⟨2024, 6, 1⟩, ⟨2024, 6, 30⟩, 0, 0⟩ ∧
      (0 : ℚ) < 500) ∧
    (add_transaction [⟨1, 1, "餐饮", 500, "月", ⟨2024, 6, 1⟩, ⟨2024, 6, 30⟩, 0, 0⟩]
        [⟨1, 1, -470, "餐饮", ⟨2024, 6, 5⟩, none, 0⟩] 2 1 (-35) "餐饮" ⟨2024, 6, 10⟩
        none 0).2 =
      some (.overspend ("餐饮") 500 505 5) :=
  ⟨⟨by norm_num, by decide, by norm_num⟩,
    ((add_transaction_overspend_exact
        [⟨1, 1, "餐饮", 500, "月", ⟨2024, 6, 1⟩, ⟨2024, 6, 30⟩, 0, 0⟩]
        [⟨1, 1, -470, "餐饮", ⟨2024, 6, 5⟩, none, 0⟩] 2 1 (-35) "餐饮" ⟨2024, 6, 10⟩
        none 0 ⟨1, 1, "餐饮", 500, "月", ⟨2024, 6, 1⟩, ⟨2024, 6, 30⟩, 0, 0⟩
        (by norm_num) (by decide) (by norm_num)).1 (by decide)).trans (by decide)⟩

/-- C10: when the first matching active monthly budget has a
non-positive amount, `add_transaction` attaches no warning of any kind,
however large the month's spending: the guarded percentage is 0, below
both thresholds, and the division by the budget is never taken. -/
theorem add_transaction_nonpos_budget_no_warning (budgets : List BudgetRow)
    (txns : List TransactionRow) (newId uid : Nat) (amount : ℚ) (cat : String)
    (tdate : Date) (desc : Option String) (cAt : Nat) (b : BudgetRow)
    (hb : findBudget budgets uid cat tdate = some b) (hle : b.amount ≤ 0) :
    (add_transaction budgets txns newId uid amount cat tdate desc cAt).2 = none := by
  show check_budget_warning budgets _ uid cat amount tdate = none
  unfold check_budget_warning
  by_cases hpos : (0 : ℚ) < amount
  · rw [if_pos hpos]
  · rw [if_neg hpos]
    simp only [hb]
    rw [if_neg (not_lt.mpr hle)]
    norm_num

/-- Witness for `add_transaction_nonpos_budget_no_warning`: a budget of
−10 with 1050 already spent this month still produces no warning. -/
theorem add_transaction_nonpos_budget_no_warning_witness :
    (findBudget [⟨1, 1, "购物", -10, "月", ⟨2024, 6, 1⟩, ⟨2024, 6, 30⟩, 0, 0⟩] 1 "购物"
          ⟨2024, 6, 10⟩ =
        some ⟨1, 1, "购物", -10, "月", ⟨2024, 6, 1⟩, ⟨2024, 6, 30⟩, 0, 0⟩ ∧
      (⟨1, 1, "购物", -10, "月", ⟨2024, 6, 1⟩, ⟨2024, 6, 30⟩, 0, 0⟩ : BudgetRow).amount ≤ 0) ∧
    (add_transaction [⟨1, 1, "购物", -10, "月", ⟨2024, 6, 1⟩, ⟨2024, 6, 30⟩, 0, 0⟩]
        [⟨1, 1, -1000, "购物", ⟨2024, 6, 2⟩, none, 0⟩] 2 1 (-50) "购物" ⟨2024, 6, 10⟩
        none 0).2 = none :=
  ⟨⟨by decide, by norm_num⟩,
    add_transaction_nonpos_budget_no_warning
      [⟨1, 1, "购物", -10, "月", ⟨2024, 6, 1⟩, ⟨2024, 6, 30⟩, 0, 0⟩]
      [⟨1, 1, -1000, "购物", ⟨2024, 6, 2⟩, none, 0⟩] 2 1 (-50) "购物" ⟨2024, 6, 10⟩
      none 0 ⟨1, 1, "购物", -10, "月", ⟨2024, 6, 1⟩, ⟨2024, 6, 30⟩, 0, 0⟩
      (by decide) (by norm_num)⟩

/-- C4 counterexample: calling `set_budget` with `period_start` supplied
(2024-03-15) and `period_end` omitted, on a current date of 2024-05-10,
stores `period_start` 2024-05-01 — the supplied bound is discarded, not
used as given. -/
theorem set_budget_partial_bounds_claim_false :
    set_budget [] 1 ⟨2024, 5, 10⟩ 1 "餐饮" 500 "月" (some ⟨2024, 3, 15⟩) none 7 =
        [⟨1, 1, "餐饮", 500, "月", ⟨2024, 5, 1⟩, ⟨2024, 5, 31⟩, 7, 7⟩] ∧
      (⟨2024, 5, 1⟩ : Date) ≠ ⟨2024, 3, 15⟩ := by
  refine ⟨by decide, by decide⟩

/-- C4 (amended): `set_budget` uses the period bounds as given only when
both are supplied; when either bound is omitted, both bounds are replaced
by the current-period defaults, the supplied one included. -/
theorem set_budget_period_joint_defaulting (today : Date) (pt : String)
    (ps pe : Option Date) :
    (∀ s e, ps = some s → pe = some e →
        set_budget_period today pt ps pe = (s, e)) ∧
      ((ps = none ∨ pe = none) →
        set_budget_period today pt ps pe = set_budget_period today pt none none) := by
  constructor
  · rintro s e rfl rfl
    rfl
  · rintro (rfl | rfl)
    · cases pe <;> rfl
    · cases ps <;> rfl

/-- Witness for `set_budget_period_joint_defaulting`: both bounds
supplied pass through unchanged; a missing end bound resets the supplied
start bound to the defaults. -/
theorem set_budget_period_joint_defaulting_witness :
    set_budget_period ⟨2024, 5, 10⟩ "月" (some ⟨2024, 3, 15⟩) (some ⟨2024, 4, 20⟩) =
        (⟨2024, 3, 15⟩, ⟨2024, 4, 20⟩) ∧
      set_budget_period ⟨2024, 5, 10⟩ "月" (some ⟨2024, 3, 15⟩) none =
        set_budget_period ⟨2024, 5, 10⟩ "月" none none :=
  ⟨(set_budget_period_joint_defaulting ⟨2024, 5, 10⟩ "月" (some ⟨2024, 3, 15⟩)
      (some ⟨2024, 4, 20⟩)).1 ⟨2024, 3, 15⟩ ⟨2024, 4, 20⟩ rfl rfl,
    (set_budget_period_joint_defaulting ⟨2024, 5, 10⟩ "月" (some ⟨2024, 3, 15⟩)
      none).2 (Or.inr rfl)⟩

/-- C5: starting from a table with no row for the (user, category,
period) key and a fresh first id, two successive `set_budget` calls with
the same period leave exactly one row for that key, carrying the second
call's amount and period type, the first call's creation timestamp, and
the second call's update timestamp. -/
theorem set_budget_upsert_unique (tbl : List BudgetRow) (id1 id2 uid : Nat)
    (cat : String) (a1 a2 : ℚ) (pt1 pt2 : String) (ps pe : Date) (today : Date)
    (t1 t2 : Nat)
    (hkey : ∀ r ∈ tbl, budgetKeyMatch r uid cat ps pe = false)
    (hid : ∀ r ∈ tbl, r.id ≠ id1) :
    (set_budget (set_budget tbl id1 today uid cat a1 pt1 (some ps) (some pe) t1)
        id2 today uid cat a2 pt2 (some ps) (some pe) t2).filter
        (fun r => budgetKeyMatch r uid cat ps pe) =
      [⟨id1, uid, cat, a2, pt2, ps, pe, t1, t2⟩] := by
  have hfind1 : tbl.find? (fun r => budgetKeyMatch r uid cat ps pe) = none :=
    List.find?_eq_none.mpr fun r hr => by simp [hkey r hr]
  have hft1 : (tbl.filter fun r =>
      !(decide (r.id = id1) || budgetKeyMatch r uid cat ps pe)) = tbl :=
    List.filter_eq_self.mpr fun r hr => by simp [hkey r hr, hid r hr]
  have h1 : set_budget tbl id1 today uid cat a1 pt1 (some ps) (some pe) t1 =
      tbl ++ [⟨id1, uid, cat, a1, pt1, ps, pe, t1, t1⟩] := by
    show upsert_budget tbl id1 uid cat a1 pt1 ps pe t1 = _
    simp only [upsert_budget, hfind1]
    rw [hft1]
  have hkm1 : budgetKeyMatch ⟨id1, uid, cat, a1, pt1, ps, pe, t1, t1⟩ uid cat ps pe =
      true := by
    simp [budgetKeyMatch]
  have hfind2 : (tbl ++ [(⟨id1, uid, cat, a1, pt1, ps, pe, t1, t1⟩ : BudgetRow)]).find?
      (fun r => budgetKeyMatch r uid cat ps pe) =
      some ⟨id1, uid, cat, a1, pt1, ps, pe, t1, t1⟩ := by
    rw [List.find?_append, hfind1]
    simp [List.find?, hkm1]
  have h2 : set_budget (tbl ++ [⟨id1, uid, cat, a1, pt1, ps, pe, t1, t1⟩])
      id2 today uid cat a2 pt2 (some ps) (some pe) t2 =
      tbl ++ [⟨id1, uid, cat, a2, pt2, ps, pe, t1, t2⟩] := by
    show upsert_budget (tbl ++ [⟨id1, uid, cat, a1, pt1, ps, pe, t1, t1⟩])
        id2 uid cat a2 pt2 ps pe t2 = _
    simp only [upsert_budget, hfind2]
    rw [List.filter_append, hft1]
    simp [budgetKeyMatch]
  rw [h1, h2, List.filter_append]
  have hftk : tbl.filter (fun r => budgetKeyMatch r uid cat ps pe) = [] :=
    List.filter_eq_nil_iff.mpr fun r hr => by simp [hkey r hr]
  rw [hftk]
  simp [budgetKeyMatch]

/-- Witness for `set_budget_upsert_unique`: on an empty table, setting a
March 2024 budget of 500 and then 600 leaves one row with amount 600, the
second period type, and the first call's creation timestamp. -/
theorem set_budget_upsert_unique_witness :
    ((∀ r ∈ ([] : List BudgetRow),
        budgetKeyMatch r 1 "餐饮" ⟨2024, 3, 1⟩ ⟨2024, 3, 31⟩ = false) ∧
      (∀ r ∈ ([] : List BudgetRow), r.id ≠ 1)) ∧
    (set_budget (set_budget [] 1 ⟨2024, 5, 10⟩ 1 "餐饮" 500 "月" (some ⟨2024, 3, 1⟩)
          (some ⟨2024, 3, 31⟩) 7) 2 ⟨2024, 5, 10⟩ 1 "餐饮" 600 "年"
        (some ⟨2024, 3, 1⟩) (some ⟨2024, 3, 31⟩) 9).filter
        (fun r => budgetKeyMatch r 1 "餐饮" ⟨2024, 3, 1⟩ ⟨2024, 3, 31⟩) =
      [⟨1, 1, "餐饮", 600, "年", ⟨2024, 3, 1⟩, ⟨2024, 3, 31⟩, 7, 9⟩] :=
  ⟨⟨by simp, by simp⟩,
    set_budget_upsert_unique [] 1 2 1 "餐饮" 500 600 "月" "年" ⟨2024, 3, 1⟩
      ⟨2024, 3, 31⟩ ⟨2024, 5, 10⟩ 7 9 (by simp) (by simp)⟩

end FinanceSpec
